import Mathlib

/-!
Shallow embedding of the client-side chat controller in
`chat-bot/static/js/app.js` (class `ChatBot`), together with proofs of the
specified properties. DOM state touched by the controller (the message
container, the input box value, the typing indicator, the error toast, the
bot-status chip, `localStorage`) is carried explicitly in a `ChatState`
record; the two `fetch` calls are modelled by passing their observed outcome
as an explicit argument, so each `async` method becomes a total function
from a state and an outcome to a state (the `try`/`catch` in the source
makes every outcome land in a normal return, never an escaping exception).
-/

/-- Sender of a message: the `sender` argument of `addMessage` is the string
`"user"` or `"bot"` in the source. -/
inductive Sender where
  | user
  | bot
  deriving DecidableEq

/-- A message as rendered into the transcript by `addMessage`: its text, its
sender, and the timestamp shown by `formatTime(new Date())`, modelled as an
abstract clock tick taken from the state. -/
structure Message where
  text : String
  sender : Sender
  time : Nat
  deriving DecidableEq

/-- One child of the `chatMessages` container: either the static welcome
element present in the page markup (what the `.welcome-message` selector in
`clearChat` matches) or a message div appended by `addMessage`. -/
inductive Elem where
  | welcome
  | msg (m : Message)
  deriving DecidableEq

/-- The JSON body of the POST to `/chat`:
`{ message, max_length: 100, temperature: 0.7 }`. -/
structure ChatRequest where
  message : String
  max_length : Nat
  temperature : ℚ
  deriving DecidableEq

/-- The mutable state owned by the `ChatBot` controller, DOM included:
the container children (transcript), the input box value, the
`isTyping` flag, `messageCount`, the current theme and the theme attribute
applied to the document, the `localStorage` entry for key `theme`, the
bot-status chip text, the loading overlay flag, the log of error-toast
notifications shown, the log of outbound `/chat` requests issued, and the
clock tick used for timestamps. -/
structure ChatState where
  container : List Elem
  inputValue : String
  isTyping : Bool
  messageCount : Nat
  currentTheme : String
  appliedTheme : String
  storedTheme : Option String
  botStatus : String
  loadingShown : Bool
  notifications : List String
  chatRequests : List ChatRequest
  now : Nat
  deriving DecidableEq

/-- Outcome of `fetch('/chat', ...)` as observed by `sendMessage`: the fetch
(or a body parse) throws with some error message, the response is non-ok and
its JSON body carries an optional `detail` field, or it succeeds with a
`reply` string. -/
inductive ChatResult where
  | networkError (message : String)
  | httpError (detail : Option String)
  | success (reply : String)
  deriving DecidableEq

/-- Outcome of `fetch('/health')` followed by `response.json()` in
`checkBackendHealth`: either the fetch or the parse throws, or a JSON body
is obtained. `httpOk` records `response.ok`, which the source never reads;
`statusField` is the value of the body field `status` (none when absent). -/
inductive HealthResult where
  | failure
  | ok (httpOk : Bool) (statusField : Option String)
  deriving DecidableEq

/-- Model of JavaScript `String.prototype.trim`: drop leading and trailing
whitespace characters. -/
def jsTrim (s : String) : String :=
  ⟨((s.data.dropWhile Char.isWhitespace).reverse.dropWhile Char.isWhitespace).reverse⟩

/-- Method `addMessage(text, sender)`: increment `messageCount` and append a
new message div (with the current timestamp) to the container. The cosmetic
word-by-word animation used for bot messages is `typeText`, which terminates
with the full text (theorem `typeText_id` below), so the rendered text is
`text` for both senders. -/
def addMessage (s : ChatState) (text : String) (sender : Sender) : ChatState :=
  { s with
      messageCount := s.messageCount + 1
      container := s.container ++ [Elem.msg ⟨text, sender, s.now⟩] }

/-- Guard at the top of `sendMessage`:
`if (!message || this.isTyping) return;`, where `message` is the trimmed
input value. -/
def sendMessageBlocked (s : ChatState) : Bool :=
  jsTrim s.inputValue = "" || s.isTyping

/-- Body of the POST issued by `sendMessage` for a given (already trimmed)
message: fixed generation parameters `max_length: 100`, `temperature: 0.7`. -/
def chatRequestOf (message : String) : ChatRequest :=
  { message := message, max_length := 100, temperature := 7 / 10 }

/-- Synchronous prefix of `sendMessage` up to the `await fetch`: append the
user message carrying the trimmed text, clear the input box, show the typing
indicator (`isTyping := true`), and issue the single POST to `/chat`. -/
def sendMessageStart (s : ChatState) : ChatState :=
  let message := jsTrim s.inputValue
  let s1 := addMessage s message Sender.user
  { s1 with
      inputValue := ""
      isTyping := true
      chatRequests := s1.chatRequests ++ [chatRequestOf message] }

/-- Text of the fallback bot message appended by the `catch` handler of
`sendMessage`. -/
def fallbackText : String := "Sorry, I encountered an error. Please try again."

/-- Default error text thrown on a non-ok response whose body has no
`detail` field: `errorData.detail || 'Failed to get response'`. -/
def httpErrorText (detail : Option String) : String :=
  detail.getD "Failed to get response"

/-- Continuation of `sendMessage` after the fetch settles: on success, hide
the typing indicator and append the bot reply (the `simulateTypingDelay`
suspension is cosmetic and leaves the state unchanged); in the `catch`
handler, hide the typing indicator, show the error toast, and append the
fallback bot message. Both paths end with `isTyping = false`. -/
def sendMessageFinish (s : ChatState) (r : ChatResult) : ChatState :=
  match r with
  | ChatResult.success reply =>
      addMessage { s with isTyping := false } reply Sender.bot
  | ChatResult.networkError m =>
      addMessage
        { s with
            isTyping := false
            notifications := s.notifications ++ [m] }
        fallbackText Sender.bot
  | ChatResult.httpError detail =>
      addMessage
        { s with
            isTyping := false
            notifications := s.notifications ++ [httpErrorText detail] }
        fallbackText Sender.bot

/-- Method `sendMessage()` run to completion with fetch outcome `r`. -/
def sendMessage (s : ChatState) (r : ChatResult) : ChatState :=
  if sendMessageBlocked s then s else sendMessageFinish (sendMessageStart s) r

/-- Notification text shown when the health check fails:
`'Failed to connect to AI Assistant. Please try again later.'`. -/
def healthErrorText : String := "Failed to connect to AI Assistant. Please try again later."

/-- The health test applied by the source, `data.status === 'healthy'`:
it reads only the parsed JSON body, never the HTTP status. -/
def isHealthy : HealthResult → Bool
  | HealthResult.failure => false
  | HealthResult.ok _ statusField => statusField == some "healthy"

/-- Method `checkBackendHealth()` run to completion with fetch outcome `r`:
on a body whose `status` field equals `"healthy"`, hide the loading overlay
and set the status chip to online; on any other body or any thrown error,
hide the loading overlay, set the chip to offline, and show the error
toast. -/
def checkBackendHealth (s : ChatState) (r : HealthResult) : ChatState :=
  match r with
  | HealthResult.ok _ statusField =>
      if statusField = some "healthy" then
        { s with loadingShown := false, botStatus := "online" }
      else
        { s with
            loadingShown := false
            botStatus := "offline"
            notifications := s.notifications ++ [healthErrorText] }
  | HealthResult.failure =>
      { s with
          loadingShown := false
          botStatus := "offline"
          notifications := s.notifications ++ [healthErrorText] }

/-- Predicate for the `.welcome-message` selector used by `clearChat`. -/
def isWelcome : Elem → Bool
  | Elem.welcome => true
  | Elem.msg _ => false

/-- Text of the bot message appended at the end of `clearChat`. -/
def clearedText : String := "Chat cleared! How can I help you?"

/-- Method `clearChat()`: keep (a clone of) the first `.welcome-message`
element of the container if one exists, drop everything else, reset
`messageCount` to 0, then append a fresh bot message via `addMessage`. -/
def clearChat (s : ChatState) : ChatState :=
  let kept : List Elem :=
    match s.container.find? isWelcome with
    | some w => [w]
    | none => []
  addMessage { s with container := kept, messageCount := 0 } clearedText Sender.bot

/-- Method `toggleTheme()`: flip `currentTheme` between light and dark,
apply it to the document, and persist it under the `localStorage` key
`theme`. -/
def toggleTheme (s : ChatState) : ChatState :=
  let t := if s.currentTheme = "light" then "dark" else "light"
  { s with currentTheme := t, appliedTheme := t, storedTheme := some t }

/-- Theme restored by the constructor at the next session start:
`localStorage.getItem('theme') || 'light'` (the empty string is falsy in
JavaScript, hence also falls back to light). -/
def initialTheme (stored : Option String) : String :=
  match stored with
  | some t => if t = "" then "light" else t
  | none => "light"

/-- One iteration of the `typeText` loop:
`element.textContent += (i > 0 ? ' ' : '') + words[i]`. -/
def typeTextStep (acc : List Char) (iw : Nat × List Char) : List Char :=
  acc ++ (if 0 < iw.1 then [' '] else []) ++ iw.2

/-- Method `typeText(element, text)` (text modelled as a character list):
start from an empty `textContent`, split the text on single spaces
(`text.split(' ')`), and append the words one by one, preceded by a space
for every index after the first. The returned value is the final
`textContent`. -/
def typeText (text : List Char) : List Char :=
  ((text.splitOn ' ').enum).foldl typeTextStep []

/-- Method `simulateTypingDelay(textLength)`: the awaited delay in
milliseconds, `baseDelay + Math.min(textLength * 30, 2000)` with
`baseDelay = 1000`. -/
def simulateTypingDelay (textLength : Nat) : Nat :=
  1000 + min (textLength * 30) 2000

/-- A concrete session state for witnesses: a container holding only the
welcome element, the given input box value, no request in flight, and a
fresh clock. -/
def mkState (input : String) : ChatState :=
  { container := [Elem.welcome]
    inputValue := input
    isTyping := false
    messageCount := 0
    currentTheme := "light"
    appliedTheme := "light"
    storedTheme := none
    botStatus := "unknown"
    loadingShown := false
    notifications := []
    chatRequests := []
    now := 0 }

/-- Any element found by the welcome-message selector is the welcome
element. -/
theorem find_isWelcome_eq (s : ChatState) (w : Elem)
    (hw : s.container.find? isWelcome = some w) : w = Elem.welcome := by
  have hp := List.find?_some hw
  cases w with
  | welcome => rfl
  | msg m => simp [isWelcome] at hp

/-- C1: a submitMessage call that fails (network error or non-ok response)
never escapes the controller: the transcript gains the user message followed
by the generic fallback bot message, exactly one notification is shown, and
the isTyping flag (the isSending flag of the spec) ends false, so a failed
chat call never leaves it stuck true. Totality of sendMessage is the
embedding of the try catch: every outcome returns a state. -/
theorem sendMessage_failure_recovers (s : ChatState) (r : ChatResult)
    (hmsg : jsTrim s.inputValue ≠ "") (hidle : s.isTyping = false)
    (hfail : ∀ reply, r ≠ ChatResult.success reply) :
    (sendMessage s r).isTyping = false ∧
    (sendMessage s r).container =
      s.container ++ [Elem.msg ⟨jsTrim s.inputValue, Sender.user, s.now⟩,
        Elem.msg ⟨fallbackText, Sender.bot, s.now⟩] ∧
    (sendMessage s r).notifications.length = s.notifications.length + 1 := by
  have hb : sendMessageBlocked s = false := by
    simp [sendMessageBlocked, hmsg, hidle]
  cases r with
  | success reply => exact absurd rfl (hfail reply)
  | networkError m =>
      simp [sendMessage, hb, sendMessageFinish, sendMessageStart, addMessage]
  | httpError detail =>
      simp [sendMessage, hb, sendMessageFinish, sendMessageStart, addMessage]

/-- Witness for C1 at a concrete state and a concrete network failure. -/
theorem sendMessage_failure_recovers_witness :
    jsTrim (mkState "Hello").inputValue ≠ "" ∧
    (mkState "Hello").isTyping = false ∧
    ((sendMessage (mkState "Hello") (ChatResult.networkError "Failed to fetch")).isTyping
        = false ∧
      (sendMessage (mkState "Hello") (ChatResult.networkError "Failed to fetch")).container =
        (mkState "Hello").container ++
          [Elem.msg ⟨jsTrim (mkState "Hello").inputValue, Sender.user, (mkState "Hello").now⟩,
            Elem.msg ⟨fallbackText, Sender.bot, (mkState "Hello").now⟩] ∧
      (sendMessage (mkState "Hello")
          (ChatResult.networkError "Failed to fetch")).notifications.length =
        (mkState "Hello").notifications.length + 1) :=
  ⟨by decide, rfl,
    sendMessage_failure_recovers (mkState "Hello") (ChatResult.networkError "Failed to fetch")
      (by decide) rfl (fun reply h => ChatResult.noConfusion h)⟩

/-- C2: when the trimmed input is empty, or a submit is already in flight
(isTyping true), sendMessage is a silent no-op: the whole state, transcript
and outbound-request log included, is returned unchanged, so no second chat
request can ever be issued while one is in flight. -/
theorem sendMessage_guard_noop (s : ChatState) (r : ChatResult)
    (h : jsTrim s.inputValue = "" ∨ s.isTyping = true) :
    sendMessage s r = s := by
  have hb : sendMessageBlocked s = true := by
    rcases h with h | h <;> simp [sendMessageBlocked, h]
  simp [sendMessage, hb]

/-- Witness for C2 at a whitespace-only input. -/
theorem sendMessage_guard_noop_witness :
    jsTrim (mkState "   ").inputValue = "" ∧
    sendMessage (mkState "   ") (ChatResult.success "Hi") = mkState "   " :=
  ⟨by decide,
    sendMessage_guard_noop (mkState "   ") (ChatResult.success "Hi") (Or.inl (by decide))⟩

/-- Counterexample to C3 as stated: submitting the input " Hello " appends a
user message whose text is the trimmed "Hello", not the submitted text
" Hello ", so the transcript never gains a user message carrying the
original text. -/
theorem sendMessage_user_text_trimmed_cex :
    (sendMessage (mkState " Hello ") (ChatResult.success "Hi there")).container =
      [Elem.welcome, Elem.msg ⟨"Hello", Sender.user, 0⟩,
        Elem.msg ⟨"Hi there", Sender.bot, 0⟩] ∧
    Elem.msg ⟨" Hello ", Sender.user, 0⟩ ∉
      (sendMessage (mkState " Hello ") (ChatResult.success "Hi there")).container := by
  decide

/-- C3 (amended: the appended user message carries the trimmed text): an
accepted submit appends a user message with the trimmed text, clears the
input box, passes through isTyping = true, issues exactly one POST whose
body is the trimmed text with the fixed parameters of chatRequestOf
(max_length 100, temperature 0.7), and on a successful reply the transcript
gains a bot message with exactly that reply, ending with isTyping false. -/
theorem sendMessage_success_appends (s : ChatState) (reply : String)
    (hmsg : jsTrim s.inputValue ≠ "") (hidle : s.isTyping = false) :
    (sendMessage s (ChatResult.success reply)).container =
      s.container ++ [Elem.msg ⟨jsTrim s.inputValue, Sender.user, s.now⟩,
        Elem.msg ⟨reply, Sender.bot, s.now⟩] ∧
    (sendMessage s (ChatResult.success reply)).inputValue = "" ∧
    (sendMessageStart s).isTyping = true ∧
    (sendMessage s (ChatResult.success reply)).chatRequests =
      s.chatRequests ++ [chatRequestOf (jsTrim s.inputValue)] ∧
    (sendMessage s (ChatResult.success reply)).isTyping = false := by
  have hb : sendMessageBlocked s = false := by
    simp [sendMessageBlocked, hmsg, hidle]
  simp [sendMessage, hb, sendMessageFinish, sendMessageStart, addMessage]

/-- Witness for the amended C3 at the scenario of the spec: input "Hello",
mocked reply "Hi there". -/
theorem sendMessage_success_appends_witness :
    jsTrim (mkState "Hello").inputValue ≠ "" ∧
    (mkState "Hello").isTyping = false ∧
    ((sendMessage (mkState "Hello") (ChatResult.success "Hi there")).container =
        (mkState "Hello").container ++
          [Elem.msg ⟨jsTrim (mkState "Hello").inputValue, Sender.user, (mkState "Hello").now⟩,
            Elem.msg ⟨"Hi there", Sender.bot, (mkState "Hello").now⟩] ∧
      (sendMessage (mkState "Hello") (ChatResult.success "Hi there")).inputValue = "" ∧
      (sendMessageStart (mkState "Hello")).isTyping = true ∧
      (sendMessage (mkState "Hello") (ChatResult.success "Hi there")).chatRequests =
        (mkState "Hello").chatRequests ++ [chatRequestOf (jsTrim (mkState "Hello").inputValue)] ∧
      (sendMessage (mkState "Hello") (ChatResult.success "Hi there")).isTyping = false) :=
  ⟨by decide, rfl,
    sendMessage_success_appends (mkState "Hello") "Hi there" (by decide) rfl⟩

/-- C4: the status chip becomes online exactly when the parsed health body
has status field "healthy" (the test isHealthy, which is all the source
inspects); on any failure or any other payload the chip becomes offline and
the error notification is shown; on the healthy outcome no notification is
shown. -/
theorem checkBackendHealth_online_iff (s : ChatState) (r : HealthResult) :
    ((checkBackendHealth s r).botStatus = "online" ↔ isHealthy r = true) ∧
    (isHealthy r = false →
      (checkBackendHealth s r).botStatus = "offline" ∧
      (checkBackendHealth s r).notifications = s.notifications ++ [healthErrorText]) ∧
    (isHealthy r = true →
      (checkBackendHealth s r).notifications = s.notifications) := by
  cases r with
  | failure => simp [checkBackendHealth, isHealthy]
  | ok b p =>
      rcases eq_or_ne p (some "healthy") with hp | hp <;>
        simp [checkBackendHealth, isHealthy, hp]

/-- Witness for C4 at the failed health check. -/
theorem checkBackendHealth_online_iff_witness :
    ((checkBackendHealth (mkState "") HealthResult.failure).botStatus = "online" ↔
      isHealthy HealthResult.failure = true) ∧
    (isHealthy HealthResult.failure = false →
      (checkBackendHealth (mkState "") HealthResult.failure).botStatus = "offline" ∧
      (checkBackendHealth (mkState "") HealthResult.failure).notifications =
        (mkState "").notifications ++ [healthErrorText]) ∧
    (isHealthy HealthResult.failure = true →
      (checkBackendHealth (mkState "") HealthResult.failure).notifications =
        (mkState "").notifications) :=
  checkBackendHealth_online_iff (mkState "") HealthResult.failure

/-- Counterexample to C5 as stated: starting from a container holding only
the welcome element, clearChat leaves a transcript of length 2 (the welcome
element followed by a fresh "Chat cleared!" bot message), not length 1. -/
theorem clearChat_not_single_cex :
    (clearChat (mkState "")).container =
      [Elem.welcome, Elem.msg ⟨clearedText, Sender.bot, 0⟩] ∧
    (clearChat (mkState "")).container.length ≠ 1 := by
  decide

/-- C5 (amended: after clearChat the transcript is the welcome element
followed by exactly one fresh "Chat cleared! How can I help you?" bot
message, length 2, whenever a welcome element was present): and clearChat is
idempotent on the whole state for every starting state. -/
theorem clearChat_resets (s : ChatState) :
    (Elem.welcome ∈ s.container →
      (clearChat s).container =
        [Elem.welcome, Elem.msg ⟨clearedText, Sender.bot, s.now⟩]) ∧
    clearChat (clearChat s) = clearChat s := by
  constructor
  · intro hmem
    have hne : s.container.find? isWelcome ≠ none := by
      rw [Ne, List.find?_eq_none]
      intro hall
      exact hall Elem.welcome hmem rfl
    obtain ⟨w, hw⟩ := Option.ne_none_iff_exists'.mp hne
    have hwW := find_isWelcome_eq s w hw
    subst hwW
    simp [clearChat, hw, addMessage]
  · rcases h : s.container.find? isWelcome with _ | w
    · simp [clearChat, h, addMessage, List.find?, isWelcome]
    · have hwW := find_isWelcome_eq s w h
      subst hwW
      simp [clearChat, h, addMessage, List.find?, isWelcome]

/-- Witness for the amended C5 at a concrete state containing the welcome
element. -/
theorem clearChat_resets_witness :
    (clearChat (mkState "")).container =
      [Elem.welcome, Elem.msg ⟨clearedText, Sender.bot, (mkState "").now⟩] ∧
    clearChat (clearChat (mkState "")) = clearChat (mkState "") :=
  ⟨(clearChat_resets (mkState "")).1 (by decide), (clearChat_resets (mkState "")).2⟩

/-- C6: for a current theme in the light and dark enum, toggling twice
restores the original theme; after a toggle the persisted localStorage value
equals both the applied theme and the current theme, and the constructor of
the next session (initialTheme) restores exactly that value. -/
theorem toggleTheme_involution_persists (s : ChatState)
    (h : s.currentTheme = "light" ∨ s.currentTheme = "dark") :
    (toggleTheme (toggleTheme s)).currentTheme = s.currentTheme ∧
    (toggleTheme s).storedTheme = some (toggleTheme s).currentTheme ∧
    (toggleTheme s).appliedTheme = (toggleTheme s).currentTheme ∧
    initialTheme (toggleTheme s).storedTheme = (toggleTheme s).currentTheme := by
  rcases h with h | h <;> simp [toggleTheme, initialTheme, h]

/-- Witness for C6 at the light theme. -/
theorem toggleTheme_involution_persists_witness :
    ((mkState "").currentTheme = "light" ∨ (mkState "").currentTheme = "dark") ∧
    ((toggleTheme (toggleTheme (mkState ""))).currentTheme = (mkState "").currentTheme ∧
      (toggleTheme (mkState "")).storedTheme =
        some (toggleTheme (mkState "")).currentTheme ∧
      (toggleTheme (mkState "")).appliedTheme = (toggleTheme (mkState "")).currentTheme ∧
      initialTheme (toggleTheme (mkState "")).storedTheme =
        (toggleTheme (mkState "")).currentTheme) :=
  ⟨Or.inl rfl, toggleTheme_involution_persists (mkState "") (Or.inl rfl)⟩

/-- C7: every controller operation other than clearChat is append-only on
the transcript: sendMessage (for every outcome, the no-op guard included)
leaves the previous container as a prefix and only appends, while
checkBackendHealth and toggleTheme do not touch the container at all, and
addMessage appends exactly one message; messages are immutable values, so
every message present before is present, unmodified and in the same relative
position, afterwards. -/
theorem transcript_append_only (s : ChatState) (r : ChatResult)
    (hr : HealthResult) (text : String) (sender : Sender) :
    (∃ t, (sendMessage s r).container = s.container ++ t) ∧
    (checkBackendHealth s hr).container = s.container ∧
    (toggleTheme s).container = s.container ∧
    (addMessage s text sender).container =
      s.container ++ [Elem.msg ⟨text, sender, s.now⟩] := by
  refine ⟨?_, ?_, rfl, rfl⟩
  · cases hb : sendMessageBlocked s with
    | true => exact ⟨[], by simp [sendMessage, hb]⟩
    | false =>
        cases r with
        | success reply =>
            exact ⟨[Elem.msg ⟨jsTrim s.inputValue, Sender.user, s.now⟩,
                Elem.msg ⟨reply, Sender.bot, s.now⟩],
              by simp [sendMessage, hb, sendMessageFinish, sendMessageStart, addMessage]⟩
        | networkError m =>
            exact ⟨[Elem.msg ⟨jsTrim s.inputValue, Sender.user, s.now⟩,
                Elem.msg ⟨fallbackText, Sender.bot, s.now⟩],
              by simp [sendMessage, hb, sendMessageFinish, sendMessageStart, addMessage]⟩
        | httpError detail =>
            exact ⟨[Elem.msg ⟨jsTrim s.inputValue, Sender.user, s.now⟩,
                Elem.msg ⟨fallbackText, Sender.bot, s.now⟩],
              by simp [sendMessage, hb, sendMessageFinish, sendMessageStart, addMessage]⟩
  · cases hr with
    | failure => rfl
    | ok b p =>
        rcases eq_or_ne p (some "healthy") with hp | hp <;>
          simp [checkBackendHealth, hp]

/-- C8: the cosmetic delay before a bot reply is rendered is monotonically
non-decreasing in the reply length and bounded above by the fixed ceiling
3000 ms (1000 base plus the 2000 cap), independent of the length. -/
theorem simulateTypingDelay_monotone_bounded (m n : Nat) (h : m ≤ n) :
    simulateTypingDelay m ≤ simulateTypingDelay n ∧ simulateTypingDelay n ≤ 3000 := by
  unfold simulateTypingDelay
  omega

/-- Witness for C8 at lengths 3 and 10. -/
theorem simulateTypingDelay_monotone_bounded_witness :
    (3 : Nat) ≤ 10 ∧
    (simulateTypingDelay 3 ≤ simulateTypingDelay 10 ∧ simulateTypingDelay 10 ≤ 3000) :=
  ⟨by decide, simulateTypingDelay_monotone_bounded 3 10 (by decide)⟩

/-- Every iteration of the typeText loop past the first word prepends a
single space, so the fold over the enumerated tail flattens to the words
joined by spaces. -/
theorem foldl_typeTextStep (ws : List (List Char)) :
    ∀ (n : ℕ) (acc : List Char), 0 < n →
      (List.enumFrom n ws).foldl typeTextStep acc
        = acc ++ (ws.map (fun w => ' ' :: w)).flatten := by
  induction ws with
  | nil => intro n acc _; simp
  | cons w ws ih =>
      intro n acc hn
      rw [List.enumFrom_cons, List.foldl_cons, ih (n + 1) _ (Nat.succ_pos n)]
      simp [typeTextStep, if_pos hn]

/-- Joining a nonempty word list with single spaces is intercalation. -/
theorem intercalate_space_cons (w : List Char) (ws : List (List Char)) :
    [' '].intercalate (w :: ws) = w ++ (ws.map (fun v => ' ' :: v)).flatten := by
  induction ws generalizing w with
  | nil => simp [List.intercalate]
  | cons v vs ih =>
      simp only [List.intercalate, List.intersperse_cons_cons, List.flatten_cons] at ih ⊢
      simp [ih]

/-- The typeText animation computes the intercalation of the split words. -/
theorem typeText_eq_intercalate (text : List Char) :
    typeText text = [' '].intercalate (text.splitOn ' ') := by
  rcases h : text.splitOn ' ' with _ | ⟨w, ws⟩
  · exact absurd h (List.splitOnP_ne_nil _ text)
  · rw [typeText, h, List.enum_cons, List.foldl_cons,
      foldl_typeTextStep ws 1 _ Nat.one_pos, intercalate_space_cons]
    simp [typeTextStep]

/-- C9: for every text, the word-by-word typing animation terminates with
the rendered text exactly equal to the input text: splitting on single
spaces and re-joining with single spaces (empty pieces from consecutive
spaces included) is the identity, so the animation never alters message
content. -/
theorem typeText_id (text : List Char) : typeText text = text := by
  rw [typeText_eq_intercalate, List.intercalate_splitOn]

/-- C10: checkBackendHealth decides online versus offline solely from the
parsed body, never from the HTTP status: the resulting state is literally
independent of the ok bit, and a non-ok response whose body still carries
status "healthy" yields an online chip with no notification. -/
theorem checkBackendHealth_ignores_httpOk (s : ChatState) (b : Bool) (p : Option String) :
    checkBackendHealth s (HealthResult.ok b p) = checkBackendHealth s (HealthResult.ok true p) ∧
    (p = some "healthy" →
      (checkBackendHealth s (HealthResult.ok b p)).botStatus = "online" ∧
      (checkBackendHealth s (HealthResult.ok b p)).notifications = s.notifications) := by
  constructor
  · rfl
  · intro hp
    subst hp
    simp [checkBackendHealth]

/-- Witness for C10 at a non-2xx response with a healthy body. -/
theorem checkBackendHealth_ignores_httpOk_witness :
    (checkBackendHealth (mkState "") (HealthResult.ok false (some "healthy"))).botStatus =
      "online" ∧
    (checkBackendHealth (mkState "") (HealthResult.ok false (some "healthy"))).notifications =
      (mkState "").notifications :=
  (checkBackendHealth_ignores_httpOk (mkState "") false (some "healthy")).2 rfl
